import Mathlib

/-!
Shallow embedding of the remote lifecycle-recording subsystem of
`harness/determined` (files `_model_metric_manager.py`,
`_checkpoint_manager.py`, `_env_context.py`).

Modelling conventions:
* Python `state` strings are kept verbatim ("STATE_ACTIVE",
  "STATE_COMPLETED", "STATE_ERRORED").
* Timestamps are opaque preformatted strings; `datetime.now(...)` results
  are passed in as explicit `endTime : String` arguments.
* The HTTP transport (`req.post` / `req.put`) is an external collaborator:
  each call that performs a send takes a `sendOk : Bool` oracle telling
  whether the response exposes `headers` (the duck-typed success check
  `hasattr(r, "headers")`); a `false` oracle means the method raises.
* Every operation returns a result structure holding: whether the call
  raised, the fields of `self` after the call (mutations happen exactly
  where the Python assignments are), and the list of requests / storage
  events issued, in order.
* Opaque pass-through dictionaries (experiment_config, hparams) and the
  serialized metric mapping are represented by association lists; the code
  never inspects them.
-/

namespace Determined

/-- Opaque pass-through dictionary value (experiment_config, hparams). -/
abbrev PyDict := List (String × String)

/-- Result of `util.make_serializable` (external collaborator): an opaque
JSON-safe metric mapping. -/
abbrev SerMetrics := List (String × String)

/-- The value of the `metrics` key of a transmitted metric record:
absent (the Active record has no such key), the literal empty dict
sent by `failed()`, or the serialized payload sent by `complete()`. -/
inductive MetricsField
  | absent
  | emptyDict
  | payload (m : SerMetrics)
deriving DecidableEq

/-! ### TrainingMetricManager (`_model_metric_manager.py`, lines 9-125) -/

/-- The body of a `training_metrics` request. -/
structure TMRecord where
  experiment_id : Int
  trial_id : Int
  step_id : Int
  start_batch : Int
  end_batch : Int
  start_time : String
  end_time : Option String
  state : String
  metrics : MetricsField
deriving DecidableEq

/-- An HTTP request issued against `/api/v1/training_metrics`. -/
inductive TMReq
  | post (r : TMRecord)
  | put (r : TMRecord)
deriving DecidableEq

/-- The instance fields of `TrainingMetricManager` (`__init__`). -/
structure TrainingMetricManager where
  master_url : String
  experiment_id : Int
  trial_id : Int
  step_id : Int
  start_batch : Int
  end_batch : Int
  start_time : String
  state : String
deriving DecidableEq

/-- `TrainingMetricManager.__init__`: stores the identifying fields and
sets `state = "STATE_ACTIVE"`. -/
def TrainingMetricManager.init (url : String) (eid tid sid sb eb : Int)
    (startTime : String) : TrainingMetricManager :=
  { master_url := url, experiment_id := eid, trial_id := tid, step_id := sid,
    start_batch := sb, end_batch := eb, start_time := startTime,
    state := "STATE_ACTIVE" }

/-- Outcome of one `TrainingMetricManager` method call. -/
structure TMResult where
  raised : Bool
  mgr : TrainingMetricManager
  reqs : List TMReq
deriving DecidableEq

/-- The record built by `__enter__` (no `end_time`, no `metrics` key). -/
def TrainingMetricManager.enterRecord (m : TrainingMetricManager) : TMRecord :=
  { experiment_id := m.experiment_id, trial_id := m.trial_id,
    step_id := m.step_id, start_batch := m.start_batch,
    end_batch := m.end_batch, start_time := m.start_time,
    end_time := none, state := m.state, metrics := .absent }

/-- `TrainingMetricManager.__enter__`: POST the Active record; raise if the
response lacks `headers`. -/
def TrainingMetricManager.enter (m : TrainingMetricManager)
    (sendOk : Bool) : TMResult :=
  { raised := !sendOk, mgr := m, reqs := [.post m.enterRecord] }

/-- The record built by `complete` from the serialized metrics. -/
def TrainingMetricManager.completeRecord (m : TrainingMetricManager)
    (endTime : String) (ser : SerMetrics) : TMRecord :=
  { experiment_id := m.experiment_id, trial_id := m.trial_id,
    step_id := m.step_id, start_batch := m.start_batch,
    end_batch := m.end_batch, start_time := m.start_time,
    end_time := some endTime, state := "STATE_COMPLETED",
    metrics := .payload ser }

/-- `TrainingMetricManager.complete(metrics)`: `util.make_serializable` runs
while the record dict is built (its outcome is the `serRes` argument); if it
raises, no PUT is issued and `self` is untouched.  Otherwise PUT the
Completed record; `self.state` is advanced only after the success check. -/
def TrainingMetricManager.complete (m : TrainingMetricManager)
    (serRes : Except Unit SerMetrics) (endTime : String)
    (sendOk : Bool) : TMResult :=
  match serRes with
  | .error _ => { raised := true, mgr := m, reqs := [] }
  | .ok ser =>
    if sendOk then
      { raised := false, mgr := { m with state := "STATE_COMPLETED" },
        reqs := [.put (m.completeRecord endTime ser)] }
    else
      { raised := true, mgr := m,
        reqs := [.put (m.completeRecord endTime ser)] }

/-- The record built by `failed` (`metrics` is the literal empty dict). -/
def TrainingMetricManager.failedRecord (m : TrainingMetricManager)
    (endTime : String) : TMRecord :=
  { experiment_id := m.experiment_id, trial_id := m.trial_id,
    step_id := m.step_id, start_batch := m.start_batch,
    end_batch := m.end_batch, start_time := m.start_time,
    end_time := some endTime, state := "STATE_ERRORED",
    metrics := .emptyDict }

/-- `TrainingMetricManager.failed()`: PUT the Errored record;
`self.state` is advanced only after the success check. -/
def TrainingMetricManager.failed (m : TrainingMetricManager)
    (endTime : String) (sendOk : Bool) : TMResult :=
  if sendOk then
    { raised := false, mgr := { m with state := "STATE_ERRORED" },
      reqs := [.put (m.failedRecord endTime)] }
  else
    { raised := true, mgr := m, reqs := [.put (m.failedRecord endTime)] }

/-- `TrainingMetricManager.__exit__`: the exception arguments are ignored;
if `state == "STATE_COMPLETED"` return, otherwise call `failed()`. -/
def TrainingMetricManager.exit (m : TrainingMetricManager)
    (endTime : String) (failSendOk : Bool) : TMResult :=
  if m.state = "STATE_COMPLETED" then
    { raised := false, mgr := m, reqs := [] }
  else
    m.failed endTime failSendOk

/-! ### ValidationMetricManager (`_model_metric_manager.py`, lines 128-231)

Same shape as the training variant with identifying key
`(experiment_id, trial_id, total_batches)`; note that the `__enter__`
record omits `experiment_id` (the source dict has no such key there),
hence the `Option Int` field. -/

/-- The body of a `validation_metrics` request. -/
structure VMRecord where
  experiment_id : Option Int
  trial_id : Int
  total_batches : Int
  start_time : String
  end_time : Option String
  state : String
  metrics : MetricsField
deriving DecidableEq

/-- An HTTP request issued against `/api/v1/validation_metrics`. -/
inductive VMReq
  | post (r : VMRecord)
  | put (r : VMRecord)
deriving DecidableEq

/-- The instance fields of `ValidationMetricManager` (`__init__`). -/
structure ValidationMetricManager where
  master_url : String
  experiment_id : Int
  trial_id : Int
  total_batches : Int
  start_time : String
  state : String
deriving DecidableEq

/-- `ValidationMetricManager.__init__`: stores the identifying fields and
sets `state = "STATE_ACTIVE"`. -/
def ValidationMetricManager.init (url : String) (eid tid tb : Int)
    (startTime : String) : ValidationMetricManager :=
  { master_url := url, experiment_id := eid, trial_id := tid,
    total_batches := tb, start_time := startTime,
    state := "STATE_ACTIVE" }

/-- Outcome of one `ValidationMetricManager` method call. -/
structure VMResult where
  raised : Bool
  mgr : ValidationMetricManager
  reqs : List VMReq
deriving DecidableEq

/-- The record built by `__enter__` (no `experiment_id`, `end_time` or
`metrics` key in the source dict). -/
def ValidationMetricManager.enterRecord (m : ValidationMetricManager) : VMRecord :=
  { experiment_id := none, trial_id := m.trial_id,
    total_batches := m.total_batches, start_time := m.start_time,
    end_time := none, state := m.state, metrics := .absent }

/-- `ValidationMetricManager.__enter__`. -/
def ValidationMetricManager.enter (m : ValidationMetricManager)
    (sendOk : Bool) : VMResult :=
  { raised := !sendOk, mgr := m, reqs := [.post m.enterRecord] }

/-- The record built by `complete`. -/
def ValidationMetricManager.completeRecord (m : ValidationMetricManager)
    (endTime : String) (ser : SerMetrics) : VMRecord :=
  { experiment_id := some m.experiment_id, trial_id := m.trial_id,
    total_batches := m.total_batches, start_time := m.start_time,
    end_time := some endTime, state := "STATE_COMPLETED",
    metrics := .payload ser }

/-- `ValidationMetricManager.complete(metrics)`: same structure as the
training variant. -/
def ValidationMetricManager.complete (m : ValidationMetricManager)
    (serRes : Except Unit SerMetrics) (endTime : String)
    (sendOk : Bool) : VMResult :=
  match serRes with
  | .error _ => { raised := true, mgr := m, reqs := [] }
  | .ok ser =>
    if sendOk then
      { raised := false, mgr := { m with state := "STATE_COMPLETED" },
        reqs := [.put (m.completeRecord endTime ser)] }
    else
      { raised := true, mgr := m,
        reqs := [.put (m.completeRecord endTime ser)] }

/-- The record built by `failed`. -/
def ValidationMetricManager.failedRecord (m : ValidationMetricManager)
    (endTime : String) : VMRecord :=
  { experiment_id := some m.experiment_id, trial_id := m.trial_id,
    total_batches := m.total_batches, start_time := m.start_time,
    end_time := some endTime, state := "STATE_ERRORED",
    metrics := .emptyDict }

/-- `ValidationMetricManager.failed()`. -/
def ValidationMetricManager.failed (m : ValidationMetricManager)
    (endTime : String) (sendOk : Bool) : VMResult :=
  if sendOk then
    { raised := false, mgr := { m with state := "STATE_ERRORED" },
      reqs := [.put (m.failedRecord endTime)] }
  else
    { raised := true, mgr := m, reqs := [.put (m.failedRecord endTime)] }

/-- `ValidationMetricManager.__exit__`. -/
def ValidationMetricManager.exit (m : ValidationMetricManager)
    (endTime : String) (failSendOk : Bool) : VMResult :=
  if m.state = "STATE_COMPLETED" then
    { raised := false, mgr := m, reqs := [] }
  else
    m.failed endTime failSendOk

/-! ### CheckpointManager (`_checkpoint_manager.py`) -/

/-- `storage.StorageMetadata(storage_id, resources, framework, format)`
as constructed by `complete`; `resources` is the manifest returned by the
external `StorageManager._list_directory` (relative path -> byte size). -/
structure StorageMetadata where
  storage_id : String
  resources : List (String × Int)
  framework : String
  format : String
deriving DecidableEq

/-- The value stored under the `format` key of a checkpoint record.
`complete` stores the format tag from the metadata; `failed` evaluates the
bare name `format`, which resolves to the Python builtin function
(a free variable in `_checkpoint_manager.py`, line 121). -/
inductive FormatField
  | tag (s : String)
  | pyBuiltinFormat
deriving DecidableEq

/-- The body of a `/api/v1/checkpoints` request.  Keys absent from the
source dict of a given call are `none`. -/
structure CkptRecord where
  uuid : Option String
  trial_id : Int
  batch_number : Int
  start_time : String
  end_time : Option String
  state : String
  experiment_config : Option PyDict
  experiment_id : Int
  hparams : Option PyDict
  resources : Option (List (String × Int))
  metadata : Option StorageMetadata
  determined_version : Option String
  framework : Option String
  format : Option FormatField
deriving DecidableEq

/-- Stand-in for the external constant `det.__version__`. -/
def det_version : String := "determined-version"

/-- An observable action of `CheckpointManager`: advancing the storage
generator (acquire on `__enter__`, release on `__exit__`) or an HTTP
request on `/api/v1/checkpoints`. -/
inductive CkptEv
  | storageAcquire
  | storageRelease
  | post (r : CkptRecord)
  | put (r : CkptRecord)
deriving DecidableEq

/-- The instance fields of `CheckpointManager`.  `storage_id` and
`storage_path` do not exist before `__enter__` assigns them (`none`
models the absent attribute). -/
structure CheckpointManager where
  master_url : String
  trial_id : Int
  batch_number : Int
  experiment_config : Option PyDict
  experiment_id : Int
  hparams : Option PyDict
  start_time : String
  state : String
  storage_id : Option String
  storage_path : Option String
deriving DecidableEq

/-- `CheckpointManager.__init__`: stores the fields, sets
`state = "STATE_ACTIVE"`; the storage attributes are not yet set. -/
def CheckpointManager.init (url : String) (tid bn : Int)
    (cfg : Option PyDict) (eid : Int) (hp : Option PyDict)
    (startTime : String) : CheckpointManager :=
  { master_url := url, trial_id := tid, batch_number := bn,
    experiment_config := cfg, experiment_id := eid, hparams := hp,
    start_time := startTime, state := "STATE_ACTIVE",
    storage_id := none, storage_path := none }

/-- Outcome of one `CheckpointManager` method call. -/
structure CkptResult where
  raised : Bool
  mgr : CheckpointManager
  evs : List CkptEv
deriving DecidableEq

/-- The record built by `__enter__` (only the identifying keys, the start
time and the current state; no uuid/end_time/payload keys). -/
def CheckpointManager.enterRecord (m : CheckpointManager) : CkptRecord :=
  { uuid := none, trial_id := m.trial_id, batch_number := m.batch_number,
    start_time := m.start_time, end_time := none, state := m.state,
    experiment_config := m.experiment_config,
    experiment_id := m.experiment_id, hparams := m.hparams,
    resources := none, metadata := none, determined_version := none,
    framework := none, format := none }

/-- `CheckpointManager.__enter__`: `next(self._storage_ctx)` first
(the `acquire` argument is its outcome); on failure the method raises
before any request is built.  On success the storage attributes are
assigned and the Active record is POSTed. -/
def CheckpointManager.enter (m : CheckpointManager)
    (acquire : Except Unit (String × String)) (sendOk : Bool) : CkptResult :=
  match acquire with
  | .error _ => { raised := true, mgr := m, evs := [] }
  | .ok (sid, spath) =>
    let m' := { m with storage_id := some sid, storage_path := some spath }
    { raised := !sendOk, mgr := m',
      evs := [.storageAcquire, .post m'.enterRecord] }

/-- `checkpoint_info` argument of `complete`: the code reads
`.get("framework", "")` and `.get("format", "")`. -/
structure CheckpointInfo where
  framework : Option String
  format : Option String
deriving DecidableEq

/-- The record built by `complete` from the constructed metadata. -/
def CheckpointManager.completeRecord (m : CheckpointManager)
    (endTime : String) (md : StorageMetadata) : CkptRecord :=
  { uuid := some md.storage_id, trial_id := m.trial_id,
    batch_number := m.batch_number, start_time := m.start_time,
    end_time := some endTime, state := "STATE_COMPLETED",
    experiment_config := m.experiment_config,
    experiment_id := m.experiment_id, hparams := m.hparams,
    resources := some md.resources, metadata := some md,
    determined_version := some det_version,
    framework := some md.framework,
    format := some (.tag md.format) }

/-- `CheckpointManager.complete(checkpoint_info)`: builds the
`StorageMetadata` from `self.storage_id`, the directory listing of
`self.storage_path` (the external listing is the `listing` argument) and
the two tags of `checkpoint_info`; PUTs the Completed record;
`self.state` is advanced only after the success check.  Reading
`self.storage_id` before `__enter__` raises (`AttributeError`). -/
def CheckpointManager.complete (m : CheckpointManager)
    (info : CheckpointInfo) (listing : List (String × Int))
    (endTime : String) (sendOk : Bool) : CkptResult :=
  match m.storage_id with
  | none => { raised := true, mgr := m, evs := [] }
  | some sid =>
    let md : StorageMetadata :=
      { storage_id := sid, resources := listing,
        framework := info.framework.getD "",
        format := info.format.getD "" }
    if sendOk then
      { raised := false, mgr := { m with state := "STATE_COMPLETED" },
        evs := [.put (m.completeRecord endTime md)] }
    else
      { raised := true, mgr := m,
        evs := [.put (m.completeRecord endTime md)] }

/-- The record built by `failed`: no uuid, no resources, no metadata and
no framework key, but `determined_version` and a `format` key whose value
is the Python builtin `format` (the free-variable slip at line 121). -/
def CheckpointManager.failedRecord (m : CheckpointManager)
    (endTime : String) : CkptRecord :=
  { uuid := none, trial_id := m.trial_id, batch_number := m.batch_number,
    start_time := m.start_time, end_time := some endTime,
    state := "STATE_ERRORED",
    experiment_config := m.experiment_config,
    experiment_id := m.experiment_id, hparams := m.hparams,
    resources := none, metadata := none,
    determined_version := some det_version,
    framework := none,
    format := some .pyBuiltinFormat }

/-- `CheckpointManager.failed()`: PUT the Errored record; `self.state` is
advanced only after the success check. -/
def CheckpointManager.failed (m : CheckpointManager)
    (endTime : String) (sendOk : Bool) : CkptResult :=
  if sendOk then
    { raised := false, mgr := { m with state := "STATE_ERRORED" },
      evs := [.put (m.failedRecord endTime)] }
  else
    { raised := true, mgr := m,
      evs := [.put (m.failedRecord endTime)] }

/-- Outcome of the `next(self._storage_ctx)` release step in `__exit__`:
the generator finishes normally (`StopIteration`), yields again, or
raises some other error. -/
inductive ReleaseOutcome
  | stopIteration
  | yielded
  | raised
deriving DecidableEq

/-- `CheckpointManager.__exit__`: advance the storage generator inside
`try ... except StopIteration: pass` (a `StopIteration` is swallowed, any
other error propagates before the state is even inspected); then return
if `state == "STATE_COMPLETED"`, else call `failed()`. -/
def CheckpointManager.exit (m : CheckpointManager) (rel : ReleaseOutcome)
    (endTime : String) (failSendOk : Bool) : CkptResult :=
  match rel with
  | .raised => { raised := true, mgr := m, evs := [.storageRelease] }
  | _ =>
    if m.state = "STATE_COMPLETED" then
      { raised := false, mgr := m, evs := [.storageRelease] }
    else
      let f := m.failed endTime failSendOk
      { raised := f.raised, mgr := f.mgr, evs := .storageRelease :: f.evs }

/-- What the body of a checkpoint `with`-scope does: either it never calls
`complete` (covers both a normal return without completing and an
exception raised inside the body — `__exit__` ignores the exception
arguments either way), or it calls `complete` with the given external
outcomes. -/
inductive CkptBody
  | noComplete
  | callComplete (info : CheckpointInfo) (listing : List (String × Int))
      (endTime : String) (sendOk : Bool)
deriving DecidableEq

/-- The full event trace of one `with CheckpointManager(...)` scope.
Per Python `with`-statement semantics, when `__enter__` raises the body
and `__exit__` never run; otherwise the body acts and `__exit__` always
runs. -/
def CheckpointManager.runScope (m : CheckpointManager)
    (acquire : Except Unit (String × String)) (postOk : Bool)
    (body : CkptBody) (rel : ReleaseOutcome) (exitEndTime : String)
    (failSendOk : Bool) : List CkptEv :=
  let en := m.enter acquire postOk
  if en.raised then en.evs
  else
    match body with
    | .noComplete =>
      en.evs ++ (en.mgr.exit rel exitEndTime failSendOk).evs
    | .callComplete info listing t sOk =>
      let c := en.mgr.complete info listing t sOk
      en.evs ++ c.evs ++ (c.mgr.exit rel exitEndTime failSendOk).evs

/-! ### Batch-size partitioning (`_env_context.py`, lines 74-111) -/

/-- A hyperparameter value as seen by `check.is_instance(_, int, ...)`:
either a Python int or a value of some other type. -/
inductive HVal
  | int (n : Int)
  | nonInt
deriving DecidableEq

/-- The failure modes of `_calculate_batch_sizes`: the two
`AssertionError`s raised by the checks, the `check.is_instance` failure,
and the `ZeroDivisionError` Python raises when `//` divides by zero. -/
inductive BatchSizeError
  | missingGlobalBatchSize
  | globalBatchSizeNotInt
  | batchSizeLessThanSlots
  | divisionByZero
deriving DecidableEq

/-- `EnvContext._calculate_batch_sizes`.  `hparams` is `self.hparams`;
`nativeParallelEnabled` and `slotsPerTrial` are the values returned by the
external `self.experiment_config` collaborator.  The `batch_size` warning
and the rounding warning only log and are omitted.  Python `//` is floor
division, embedded as `Int.fdiv`. -/
def calculate_batch_sizes (hparams : List (String × HVal))
    (nativeParallelEnabled : Bool) (slotsPerTrial : Int) :
    Except BatchSizeError (Int × Int) :=
  match hparams.lookup "global_batch_size" with
  | none => .error .missingGlobalBatchSize
  | some .nonInt => .error .globalBatchSizeNotInt
  | some (.int global_batch_size) =>
    if nativeParallelEnabled then
      .ok (global_batch_size, global_batch_size)
    else if global_batch_size < slotsPerTrial then
      .error .batchSizeLessThanSlots
    else if slotsPerTrial = 0 then
      .error .divisionByZero
    else
      let per_gpu_batch_size := Int.fdiv global_batch_size slotsPerTrial
      let effective_batch_size := per_gpu_batch_size * slotsPerTrial
      .ok (per_gpu_batch_size, effective_batch_size)

/-! ### Concrete sample instances used by witnesses -/

/-- A freshly constructed training-metric manager. -/
def tmSample : TrainingMetricManager :=
  TrainingMetricManager.init "http://master" 1 2 3 0 100 "T0"

/-- A freshly constructed validation-metric manager. -/
def vmSample : ValidationMetricManager :=
  ValidationMetricManager.init "http://master" 1 2 50 "T0"

/-- A freshly constructed checkpoint manager (storage not yet acquired). -/
def cmSample : CheckpointManager :=
  CheckpointManager.init "http://master" 2 100 none 1 none "T0"

/-- `tmSample` after a successful `complete`. -/
def tmSampleDone : TrainingMetricManager :=
  { tmSample with state := "STATE_COMPLETED" }

/-- `vmSample` after a successful `complete`. -/
def vmSampleDone : ValidationMetricManager :=
  { vmSample with state := "STATE_COMPLETED" }

/-- `cmSample` after a successful `__enter__` (storage acquired, still
Active). -/
def cmSampleOpen : CheckpointManager :=
  { cmSample with
    storage_id := some "uuid-1", storage_path := some "ckpt-path" }

/-- `cmSample` after a successful `__enter__` and `complete`. -/
def cmSampleDone : CheckpointManager :=
  { cmSample with
    state := "STATE_COMPLETED",
    storage_id := some "uuid-1", storage_path := some "ckpt-path" }

/-! ## Theorems -/

/-- Claim C5: whenever `_calculate_batch_sizes` accepts its input, it
returns `(globalBatchSize, globalBatchSize)` unchanged in native-parallel
mode, and otherwise `perWorkerBatchSize = floor(globalBatchSize /
slotsPerTrial)` together with `effectiveGlobalBatchSize =
perWorkerBatchSize * slotsPerTrial`; in particular `globalBatchSize = 17`,
`slotsPerTrial = 4`, non-native yields `(4, 16)`. -/
theorem claim_C5_batch_partition
    (hparams : List (String × HVal)) (native : Bool) (slots g p e : Int)
    (hg : hparams.lookup "global_batch_size" = some (.int g))
    (h : calculate_batch_sizes hparams native slots = .ok (p, e)) :
    (native = true → p = g ∧ e = g) ∧
    (native = false → p = Int.fdiv g slots ∧ e = Int.fdiv g slots * slots) ∧
    calculate_batch_sizes [("global_batch_size", HVal.int 17)] false 4 =
      .ok (4, 16) := by
  refine ⟨?_, ?_, by rfl⟩
  · rintro rfl
    simp [calculate_batch_sizes, hg] at h
    exact ⟨h.1.symm, h.2.symm⟩
  · rintro rfl
    by_cases hlt : g < slots
    · simp [calculate_batch_sizes, hg, hlt] at h
    · by_cases hz : slots = 0
      · exfalso
        simp [calculate_batch_sizes, hg, hz] at h
        split at h <;> simp at h
      · simp [calculate_batch_sizes, hg, hlt, hz] at h
        exact ⟨h.1.symm, h.2.symm⟩

/-- Witness for C5 at `globalBatchSize = 17`, `slotsPerTrial = 4`,
non-native mode. -/
theorem claim_C5_batch_partition_witness :
    ([(("global_batch_size" : String), HVal.int 17)].lookup
        "global_batch_size" = some (.int 17) ∧
     calculate_batch_sizes [("global_batch_size", HVal.int 17)] false 4 =
       .ok (4, 16)) ∧
    ((false = true → (4 : Int) = 17 ∧ (16 : Int) = 17) ∧
     (false = false →
        (4 : Int) = Int.fdiv 17 4 ∧ (16 : Int) = Int.fdiv 17 4 * 4) ∧
     calculate_batch_sizes [("global_batch_size", HVal.int 17)] false 4 =
       .ok (4, 16)) :=
  ⟨⟨by decide, by rfl⟩,
   claim_C5_batch_partition [("global_batch_size", HVal.int 17)] false 4
     17 4 16 (by decide) (by rfl)⟩

/-- Claim C6: with at least one slot, `_calculate_batch_sizes` fails
exactly when the `global_batch_size` hyperparameter is absent or not an
int, or when native-parallel mode is disabled and the global batch size is
below `slotsPerTrial`; in all other cases it returns a result.  In
particular `globalBatchSize = 3`, `slotsPerTrial = 4` fails. -/
theorem claim_C6_batch_partition_error_iff
    (hparams : List (String × HVal)) (native : Bool) (slots : Int)
    (hs : 1 ≤ slots) :
    ((∃ err, calculate_batch_sizes hparams native slots = .error err) ↔
      (hparams.lookup "global_batch_size" = none ∨
       hparams.lookup "global_batch_size" = some .nonInt ∨
       (native = false ∧ ∃ g,
          hparams.lookup "global_batch_size" = some (.int g) ∧
          g < slots))) ∧
    (∃ err, calculate_batch_sizes [("global_batch_size", HVal.int 3)]
        false 4 = .error err) := by
  refine ⟨?_, ⟨.batchSizeLessThanSlots, by rfl⟩⟩
  rcases hl : hparams.lookup "global_batch_size" with _ | v
  · simp [calculate_batch_sizes, hl]
  · cases v with
    | nonInt => simp [calculate_batch_sizes, hl]
    | int g =>
      cases native with
      | true => simp [calculate_batch_sizes, hl]
      | false =>
        by_cases hlt : g < slots
        · simp [calculate_batch_sizes, hl, hlt]
        · have hz : ¬slots = 0 := by omega
          simp [calculate_batch_sizes, hl, hlt, hz]

/-- Witness for C6 at `globalBatchSize = 3`, `slotsPerTrial = 4`. -/
theorem claim_C6_batch_partition_error_iff_witness :
    (1 : Int) ≤ 4 ∧
    (∃ err, calculate_batch_sizes [("global_batch_size", HVal.int 3)]
        false 4 = .error err) :=
  ⟨by decide,
   (claim_C6_batch_partition_error_iff [("global_batch_size", HVal.int 3)]
      false 4 (by decide)).2⟩

/-- Claim C10: in non-native mode, whenever the partitioner accepts an
integer `global_batch_size >= slots_per_trial >= 1`, the per-worker batch
size is at least 1, the effective global batch size is a multiple of
`slots_per_trial`, and it is the largest such multiple not exceeding
`global_batch_size`. -/
theorem claim_C10_partition_bounds
    (hparams : List (String × HVal)) (slots g p e : Int)
    (hg : hparams.lookup "global_batch_size" = some (.int g))
    (hs : 1 ≤ slots) (hge : slots ≤ g)
    (h : calculate_batch_sizes hparams false slots = .ok (p, e)) :
    1 ≤ p ∧ slots ∣ e ∧ g - slots < e ∧ e ≤ g := by
  have hlt : ¬g < slots := by omega
  have hz : ¬slots = 0 := by omega
  simp [calculate_batch_sizes, hg, hlt, hz] at h
  have hspos : (0 : Int) < slots := by omega
  have hp : p = g / slots := by
    rw [← h.1, Int.fdiv_eq_ediv g (by omega)]
  have he : e = g / slots * slots := by
    rw [← h.2, Int.fdiv_eq_ediv g (by omega)]
  have hdm : slots * (g / slots) + g % slots = g := Int.ediv_add_emod g slots
  have hmn : 0 ≤ g % slots := Int.emod_nonneg g (by omega)
  have hml : g % slots < slots := Int.emod_lt_of_pos g hspos
  have he2 : e = g - g % slots := by
    rw [he, mul_comm]; linarith
  refine ⟨?_, ⟨g / slots, by rw [he]; ring⟩, by omega, by omega⟩
  rw [hp]
  exact (Int.le_ediv_iff_mul_le hspos).mpr (by omega)

/-- Witness for C10 at `globalBatchSize = 17`, `slotsPerTrial = 4`. -/
theorem claim_C10_partition_bounds_witness :
    ((1 : Int) ≤ 4 ∧ (4 : Int) ≤ 17 ∧
     calculate_batch_sizes [("global_batch_size", HVal.int 17)] false 4 =
       .ok (4, 16)) ∧
    (1 ≤ (4 : Int) ∧ (4 : Int) ∣ 16 ∧ (17 : Int) - 4 < 16 ∧
     (16 : Int) ≤ 17) :=
  ⟨⟨by decide, by decide, by rfl⟩,
   claim_C10_partition_bounds [("global_batch_size", HVal.int 17)] 4 17 4 16
     (by decide) (by decide) (by decide) (by rfl)⟩

/-- Claim C1: for each recorder scope (training-metric,
validation-metric, checkpoint) and every way the scope exits — the exit
handler only ever observes the in-memory state, which is
`"STATE_COMPLETED"` exactly when `complete` succeeded and is unchanged by
a body exception, a normal return without `complete`, or a failed
`complete` — the handler is a no-op when the state is already Completed,
and otherwise calls the fail operation, which issues a PUT whose record
state is `"STATE_ERRORED"`; when that send is acknowledged the in-memory
state is terminal as well, so no opened record is left Active. -/
theorem claim_C1_scope_exit_terminal
    (tm : TrainingMetricManager) (vm : ValidationMetricManager)
    (cm : CheckpointManager) (t1 t2 t3 : String) (o1 o2 o3 : Bool)
    (rel : ReleaseOutcome) (hrel : rel ≠ .raised) :
    ((tm.state = "STATE_COMPLETED" →
        tm.exit t1 o1 = { raised := false, mgr := tm, reqs := [] }) ∧
     (tm.state ≠ "STATE_COMPLETED" →
        (tm.exit t1 o1).reqs = [.put (tm.failedRecord t1)] ∧
        (tm.failedRecord t1).state = "STATE_ERRORED" ∧
        (o1 = true → (tm.exit t1 o1).mgr.state = "STATE_ERRORED"))) ∧
    ((vm.state = "STATE_COMPLETED" →
        vm.exit t2 o2 = { raised := false, mgr := vm, reqs := [] }) ∧
     (vm.state ≠ "STATE_COMPLETED" →
        (vm.exit t2 o2).reqs = [.put (vm.failedRecord t2)] ∧
        (vm.failedRecord t2).state = "STATE_ERRORED" ∧
        (o2 = true → (vm.exit t2 o2).mgr.state = "STATE_ERRORED"))) ∧
    ((cm.state = "STATE_COMPLETED" →
        cm.exit rel t3 o3 =
          { raised := false, mgr := cm, evs := [.storageRelease] }) ∧
     (cm.state ≠ "STATE_COMPLETED" →
        (cm.exit rel t3 o3).evs =
          [.storageRelease, .put (cm.failedRecord t3)] ∧
        (cm.failedRecord t3).state = "STATE_ERRORED" ∧
        (o3 = true →
          (cm.exit rel t3 o3).mgr.state = "STATE_ERRORED"))) := by
  cases rel with
  | raised => exact absurd rfl hrel
  | stopIteration =>
    refine ⟨⟨?_, ?_⟩, ⟨?_, ?_⟩, ⟨?_, ?_⟩⟩ <;> intro h
    · simp [TrainingMetricManager.exit, h]
    · cases o1 <;>
        simp [TrainingMetricManager.exit, TrainingMetricManager.failed,
          TrainingMetricManager.failedRecord, h]
    · simp [ValidationMetricManager.exit, h]
    · cases o2 <;>
        simp [ValidationMetricManager.exit, ValidationMetricManager.failed,
          ValidationMetricManager.failedRecord, h]
    · simp [CheckpointManager.exit, h]
    · cases o3 <;>
        simp [CheckpointManager.exit, CheckpointManager.failed,
          CheckpointManager.failedRecord, h]
  | yielded =>
    refine ⟨⟨?_, ?_⟩, ⟨?_, ?_⟩, ⟨?_, ?_⟩⟩ <;> intro h
    · simp [TrainingMetricManager.exit, h]
    · cases o1 <;>
        simp [TrainingMetricManager.exit, TrainingMetricManager.failed,
          TrainingMetricManager.failedRecord, h]
    · simp [ValidationMetricManager.exit, h]
    · cases o2 <;>
        simp [ValidationMetricManager.exit, ValidationMetricManager.failed,
          ValidationMetricManager.failedRecord, h]
    · simp [CheckpointManager.exit, h]
    · cases o3 <;>
        simp [CheckpointManager.exit, CheckpointManager.failed,
          CheckpointManager.failedRecord, h]

/-- Witness for C1: the fresh (still Active) sample recorders, exiting
with acknowledged fail sends and a normally finishing storage release. -/
theorem claim_C1_scope_exit_terminal_witness :
    (ReleaseOutcome.stopIteration ≠ ReleaseOutcome.raised ∧
     tmSample.state ≠ "STATE_COMPLETED" ∧
     cmSample.state ≠ "STATE_COMPLETED") ∧
    ((tmSample.exit "T1" true).reqs = [.put (tmSample.failedRecord "T1")] ∧
     (tmSample.failedRecord "T1").state = "STATE_ERRORED") ∧
    ((cmSample.exit .stopIteration "T3" true).evs =
       [.storageRelease, .put (cmSample.failedRecord "T3")] ∧
     (cmSample.failedRecord "T3").state = "STATE_ERRORED") := by
  have h := claim_C1_scope_exit_terminal tmSample vmSample cmSample
    "T1" "T2" "T3" true true true .stopIteration (by decide)
  have htm := h.1.2 (by decide)
  have hcm := h.2.2.2 (by decide)
  exact ⟨⟨by decide, by decide, by decide⟩, ⟨htm.1, htm.2.1⟩,
    ⟨hcm.1, hcm.2.1⟩⟩

/-- Claim C9: once a recorder's state is `"STATE_COMPLETED"`, running the
scope-exit logic issues no PUT (for the checkpoint recorder only the
storage release happens) and leaves the manager, in particular its state,
unchanged. -/
theorem claim_C9_exit_noop_after_completed
    (tm : TrainingMetricManager) (vm : ValidationMetricManager)
    (cm : CheckpointManager) (t1 t2 t3 : String) (o1 o2 o3 : Bool)
    (rel : ReleaseOutcome) (hrel : rel ≠ .raised)
    (h1 : tm.state = "STATE_COMPLETED")
    (h2 : vm.state = "STATE_COMPLETED")
    (h3 : cm.state = "STATE_COMPLETED") :
    tm.exit t1 o1 = { raised := false, mgr := tm, reqs := [] } ∧
    vm.exit t2 o2 = { raised := false, mgr := vm, reqs := [] } ∧
    cm.exit rel t3 o3 =
      { raised := false, mgr := cm, evs := [.storageRelease] } := by
  refine ⟨by simp [TrainingMetricManager.exit, h1],
    by simp [ValidationMetricManager.exit, h2], ?_⟩
  cases rel with
  | raised => exact absurd rfl hrel
  | stopIteration => simp [CheckpointManager.exit, h3]
  | yielded => simp [CheckpointManager.exit, h3]

/-- Witness for C9: the completed sample recorders. -/
theorem claim_C9_exit_noop_after_completed_witness :
    (ReleaseOutcome.stopIteration ≠ ReleaseOutcome.raised ∧
     tmSampleDone.state = "STATE_COMPLETED" ∧
     vmSampleDone.state = "STATE_COMPLETED" ∧
     cmSampleDone.state = "STATE_COMPLETED") ∧
    (tmSampleDone.exit "T1" true =
       { raised := false, mgr := tmSampleDone, reqs := [] } ∧
     vmSampleDone.exit "T2" true =
       { raised := false, mgr := vmSampleDone, reqs := [] } ∧
     cmSampleDone.exit .stopIteration "T3" true =
       { raised := false, mgr := cmSampleDone, evs := [.storageRelease] }) :=
  ⟨⟨by decide, by decide, by decide, by decide⟩,
   claim_C9_exit_noop_after_completed tmSampleDone vmSampleDone cmSampleDone
     "T1" "T2" "T3" true true true .stopIteration (by decide)
     (by decide) (by decide) (by decide)⟩

/-- Claim C2: when the send performed by `complete` fails (the response
lacks the `headers` success marker), `complete` raises, the in-memory
state stays exactly as it was (Active), and the subsequent scope exit
still issues an Errored terminal PUT.  For the checkpoint recorder the
storage slot is assumed acquired (`complete` reads `self.storage_id`). -/
theorem claim_C2_complete_send_failure_keeps_active
    (tm : TrainingMetricManager) (vm : ValidationMetricManager)
    (cm : CheckpointManager) (serM serV : SerMetrics)
    (info : CheckpointInfo) (listing : List (String × Int)) (sid : String)
    (t1 t2 t3 e1 e2 e3 : String) (f1 f2 f3 : Bool) (rel : ReleaseOutcome)
    (h1 : tm.state = "STATE_ACTIVE") (h2 : vm.state = "STATE_ACTIVE")
    (h3 : cm.state = "STATE_ACTIVE") (hsid : cm.storage_id = some sid)
    (hrel : rel ≠ .raised) :
    ((tm.complete (.ok serM) t1 false).raised = true ∧
     (tm.complete (.ok serM) t1 false).mgr = tm ∧
     (tm.complete (.ok serM) t1 false).mgr.state = "STATE_ACTIVE" ∧
     ((tm.complete (.ok serM) t1 false).mgr.exit e1 f1).reqs =
       [.put (tm.failedRecord e1)] ∧
     (tm.failedRecord e1).state = "STATE_ERRORED") ∧
    ((vm.complete (.ok serV) t2 false).raised = true ∧
     (vm.complete (.ok serV) t2 false).mgr = vm ∧
     (vm.complete (.ok serV) t2 false).mgr.state = "STATE_ACTIVE" ∧
     ((vm.complete (.ok serV) t2 false).mgr.exit e2 f2).reqs =
       [.put (vm.failedRecord e2)] ∧
     (vm.failedRecord e2).state = "STATE_ERRORED") ∧
    ((cm.complete info listing t3 false).raised = true ∧
     (cm.complete info listing t3 false).mgr = cm ∧
     (cm.complete info listing t3 false).mgr.state = "STATE_ACTIVE" ∧
     ((cm.complete info listing t3 false).mgr.exit rel e3 f3).evs =
       [.storageRelease, .put (cm.failedRecord e3)] ∧
     (cm.failedRecord e3).state = "STATE_ERRORED") := by
  have htm : tm.complete (.ok serM) t1 false =
      { raised := true, mgr := tm,
        reqs := [.put (tm.completeRecord t1 serM)] } := by
    simp [TrainingMetricManager.complete]
  have hvm : vm.complete (.ok serV) t2 false =
      { raised := true, mgr := vm,
        reqs := [.put (vm.completeRecord t2 serV)] } := by
    simp [ValidationMetricManager.complete]
  have hcm : (cm.complete info listing t3 false).raised = true ∧
      (cm.complete info listing t3 false).mgr = cm := by
    simp [CheckpointManager.complete, hsid]
  refine ⟨⟨by rw [htm], by rw [htm], by rw [htm]; exact h1, ?_, by
      simp [TrainingMetricManager.failedRecord]⟩,
    ⟨by rw [hvm], by rw [hvm], by rw [hvm]; exact h2, ?_, by
      simp [ValidationMetricManager.failedRecord]⟩,
    ⟨hcm.1, hcm.2, by rw [hcm.2]; exact h3, ?_, by
      simp [CheckpointManager.failedRecord]⟩⟩
  · rw [htm]
    cases f1 <;>
      simp [TrainingMetricManager.exit, TrainingMetricManager.failed, h1]
  · rw [hvm]
    cases f2 <;>
      simp [ValidationMetricManager.exit, ValidationMetricManager.failed, h2]
  · rw [hcm.2]
    cases rel with
    | raised => exact absurd rfl hrel
    | stopIteration =>
      cases f3 <;>
        simp [CheckpointManager.exit, CheckpointManager.failed, h3]
    | yielded =>
      cases f3 <;>
        simp [CheckpointManager.exit, CheckpointManager.failed, h3]

/-- Witness for C2: the fresh sample recorders (checkpoint one with
storage acquired), all sends failing. -/
theorem claim_C2_complete_send_failure_keeps_active_witness :
    (tmSample.state = "STATE_ACTIVE" ∧ vmSample.state = "STATE_ACTIVE" ∧
     cmSampleOpen.state = "STATE_ACTIVE" ∧
     cmSampleOpen.storage_id = some "uuid-1" ∧
     ReleaseOutcome.stopIteration ≠ ReleaseOutcome.raised) ∧
    ((tmSample.complete (.ok []) "T1" false).raised = true ∧
     (tmSample.complete (.ok []) "T1" false).mgr = tmSample) ∧
    ((cmSampleOpen.complete { framework := none, format := none } []
        "T3" false).raised = true ∧
     (cmSampleOpen.complete { framework := none, format := none } []
        "T3" false).mgr = cmSampleOpen) := by
  have h := claim_C2_complete_send_failure_keeps_active tmSample vmSample
    cmSampleOpen [] [] { framework := none, format := none } [] "uuid-1"
    "T1" "T2" "T3" "E1" "E2" "E3" true true true .stopIteration
    (by decide) (by decide) (by decide) (by decide) (by decide)
  exact ⟨⟨by decide, by decide, by decide, by decide, by decide⟩,
    ⟨h.1.1, h.1.2.1⟩, ⟨h.2.2.1, h.2.2.2.1⟩⟩

/-- Claim C7: if the serialization-normalization step inside a metric
`complete` raises, `complete` raises before any PUT is sent and before the
in-memory state changes, and the scope's terminal record sent by `fail`
at exit is `"STATE_ERRORED"` with the empty metrics mapping. -/
theorem claim_C7_serialization_error_keeps_state
    (tm : TrainingMetricManager) (vm : ValidationMetricManager)
    (t1 t2 e1 e2 : String) (o1 o2 f1 f2 : Bool)
    (h1 : tm.state = "STATE_ACTIVE") (h2 : vm.state = "STATE_ACTIVE") :
    tm.complete (.error ()) t1 o1 =
      { raised := true, mgr := tm, reqs := [] } ∧
    ((tm.exit e1 f1).reqs = [.put (tm.failedRecord e1)] ∧
     (tm.failedRecord e1).state = "STATE_ERRORED" ∧
     (tm.failedRecord e1).metrics = .emptyDict) ∧
    vm.complete (.error ()) t2 o2 =
      { raised := true, mgr := vm, reqs := [] } ∧
    ((vm.exit e2 f2).reqs = [.put (vm.failedRecord e2)] ∧
     (vm.failedRecord e2).state = "STATE_ERRORED" ∧
     (vm.failedRecord e2).metrics = .emptyDict) := by
  refine ⟨rfl, ⟨?_, rfl, rfl⟩, rfl, ⟨?_, rfl, rfl⟩⟩
  · cases f1 <;>
      simp [TrainingMetricManager.exit, TrainingMetricManager.failed, h1]
  · cases f2 <;>
      simp [ValidationMetricManager.exit, ValidationMetricManager.failed, h2]

/-- Witness for C7: the fresh metric sample recorders. -/
theorem claim_C7_serialization_error_keeps_state_witness :
    (tmSample.state = "STATE_ACTIVE" ∧ vmSample.state = "STATE_ACTIVE") ∧
    (tmSample.complete (.error ()) "T1" true =
       { raised := true, mgr := tmSample, reqs := [] } ∧
     (tmSample.failedRecord "E1").metrics = .emptyDict ∧
     vmSample.complete (.error ()) "T2" true =
       { raised := true, mgr := vmSample, reqs := [] }) := by
  have h := claim_C7_serialization_error_keeps_state tmSample vmSample
    "T1" "T2" "E1" "E2" true true true true (by decide) (by decide)
  exact ⟨⟨by decide, by decide⟩, ⟨h.1, h.2.1.2.2, h.2.2.1⟩⟩

/-- Claim C8: on checkpoint scope exit, the storage generator is advanced
(the slot released) before the terminal-state check, whatever the state;
a `StopIteration` from the release (no further cleanup needed) is
swallowed and the exit proceeds exactly as when the generator yields,
while any other release error propagates with nothing else done. -/
theorem claim_C8_release_before_state_check
    (m : CheckpointManager) (t : String) (fOk : Bool) :
    (∀ rel, (m.exit rel t fOk).evs.head? = some .storageRelease) ∧
    m.exit .raised t fOk =
      { raised := true, mgr := m, evs := [.storageRelease] } ∧
    m.exit .stopIteration t fOk = m.exit .yielded t fOk ∧
    (m.state = "STATE_COMPLETED" →
      m.exit .stopIteration t fOk =
        { raised := false, mgr := m, evs := [.storageRelease] }) := by
  refine ⟨?_, rfl, rfl, ?_⟩
  · intro rel
    cases rel with
    | raised => rfl
    | stopIteration =>
      by_cases h : m.state = "STATE_COMPLETED" <;>
        cases fOk <;>
          simp [CheckpointManager.exit, CheckpointManager.failed, h]
    | yielded =>
      by_cases h : m.state = "STATE_COMPLETED" <;>
        cases fOk <;>
          simp [CheckpointManager.exit, CheckpointManager.failed, h]
  · intro h
    simp [CheckpointManager.exit, h]

/-- Witness for C8: the completed sample checkpoint recorder. -/
theorem claim_C8_release_before_state_check_witness :
    cmSampleDone.state = "STATE_COMPLETED" ∧
    cmSampleDone.exit .stopIteration "T" true =
      { raised := false, mgr := cmSampleDone, evs := [.storageRelease] } :=
  ⟨by decide,
   (claim_C8_release_before_state_check cmSampleDone "T" true).2.2.2
     (by decide)⟩

/-- Claim C4: `__enter__` acquires the storage slot strictly before the
Active POST (on success the trace is exactly acquisition followed by the
POST), and when acquisition fails `__enter__` raises having issued
nothing, and the whole scope — per `with`-statement semantics the body
and `__exit__` never run — issues no POST and no PUT at all. -/
theorem claim_C4_acquire_before_post
    (m : CheckpointManager) (postOk : Bool) (body : CkptBody)
    (rel : ReleaseOutcome) (t : String) (fOk : Bool) (sid spath : String) :
    (m.enter (.error ()) postOk).raised = true ∧
    m.runScope (.error ()) postOk body rel t fOk = [] ∧
    (m.enter (.ok (sid, spath)) postOk).evs =
      [.storageAcquire,
       .post ({ m with
         storage_id := some sid,
         storage_path := some spath }).enterRecord] := by
  refine ⟨rfl, ?_, rfl⟩
  simp [CheckpointManager.runScope, CheckpointManager.enter]

/-- Claim C3 (code deviation, `_checkpoint_manager.py` line 121): the
Errored record sent by `failed` indeed carries no storage id, resource
manifest, metadata or framework tag, but it is not payload-free: it
contains a `format` key, because the bare name `format` in the source
resolves to the Python builtin function, so the key is transmitted with
that placeholder value instead of being omitted. -/
theorem claim_C3_failed_record_contains_format_key :
    (cmSample.failedRecord "T").uuid = none ∧
    (cmSample.failedRecord "T").resources = none ∧
    (cmSample.failedRecord "T").metadata = none ∧
    (cmSample.failedRecord "T").framework = none ∧
    (cmSample.failedRecord "T").state = "STATE_ERRORED" ∧
    (cmSample.failedRecord "T").format = some .pyBuiltinFormat :=
  ⟨rfl, rfl, rfl, rfl, rfl, rfl⟩

end Determined
